import Mathlib

/-!
Verification of the playback-synchronized timeline and seek controller of the
VideoClassifier frontend.  The definitions below are a shallow embedding of
`src/frontend/src/components/Timeline.jsx` and `src/frontend/src/App.jsx`:
JavaScript numbers are modelled as rationals (`ℚ`), DOM references by `Bool`
or `Option`, and React state updates by explicit state passing.
-/

namespace VideoClassifier

/-- A segment as delivered by the analysis backend and consumed by the
Timeline: `{ mode, start, end }`.  The source field `end` is a Lean keyword,
so it is embedded as `stop`. -/
structure Segment where
  mode  : String
  start : ℚ
  stop  : ℚ
  deriving Repr, DecidableEq

/-- Embeds `colorForMode` of Timeline.jsx: a switch over the mode string with
a default arm returning the neutral color `#94a3b8`. -/
def colorForMode (mode : String) : String :=
  if mode = "DIALOGUE_SCENE" then "#4f46e5"
  else if mode = "VISUAL_MONTAGE" then "#ef4444"
  else if mode = "VOICEOVER_WITH_PICTURE" then "#10b981"
  else "#94a3b8"

/-- Embeds the helper `pct(t)` of Timeline.jsx (the spec calls it
`timeToPercent`): `if (!duration || duration <= 0) return 0;
return Math.max(0, Math.min(100, (t / duration) * 100))`.
For rationals, the JS falsiness test `!duration` (true exactly at `0`)
is subsumed by `duration <= 0`. -/
def pct (duration t : ℚ) : ℚ :=
  if duration ≤ 0 then 0 else max 0 (min 100 (t / duration * 100))

/-- One iteration of the Position Tracker's animation-frame loop in
Timeline.jsx: the playhead state is overwritten with
`currentTime / duration` only when the video element is present
(`src = some currentTime`) and `duration > 0`; in every other case the
`setPlayhead` call is skipped and the state is unchanged. -/
def tick (playhead : ℚ) (src : Option ℚ) (duration : ℚ) : ℚ :=
  match src with
  | some currentTime => if 0 < duration then currentTime / duration else playhead
  | none => playhead

/-- The playhead state after a sequence of animation-frame samples, starting
from state `playhead` (the `useState(0)` initial value at mount). -/
def ticks (playhead : ℚ) (samples : List (Option ℚ)) (duration : ℚ) : ℚ :=
  samples.foldl (fun ph s => tick ph s duration) playhead

/-- Embeds `handleClick` of Timeline.jsx.  The two early-return conditions of
the source (`!containerRef.current || !onSeek`) are the booleans; otherwise
the click offset `x = e.clientX - rect.left` and the measured width
`rect.width` give `p = x / rect.width` and the seek request `onSeek(p *
duration)`.  `some t` is the single seek request carrying time `t`; `none`
means no request was issued.  (`x / width` matches the source exactly
whenever `width ≠ 0`; JavaScript division by a zero width yields a
non-finite number, outside this rational model.) -/
def handleClick (hasContainer hasOnSeek : Bool) (x width duration : ℚ) :
    Option ℚ :=
  if !hasContainer || !hasOnSeek then none
  else some (x / width * duration)

/-- Embeds `handleSeek` of App.jsx: a single assignment
`videoRef.current.currentTime = t` when the video element exists.
`some t` records the one time value written. -/
def handleSeek (hasVideo : Bool) (t : ℚ) : Option ℚ :=
  if hasVideo then some t else none

/-- The inverse mapping used by the Seek Controller (the spec's
`percentToTime`): a track fraction `p` becomes the time `p * duration`,
exactly the `p * duration` of `handleClick` in Timeline.jsx. -/
def percentToTime (p duration : ℚ) : ℚ := p * duration

/-- The inline style computed for one segment in the Timeline render:
`left`, `width` (both in percent) and `background`. -/
structure RenderedSegment where
  left : ℚ
  width : ℚ
  background : String
  deriving Repr, DecidableEq

/-- Embeds the style of one rendered segment in Timeline.jsx:
`left: pct(s.start)%`, `width: max(0.2, pct(s.end) - pct(s.start))%`,
`background: colorForMode(s.mode)`. -/
def renderSegment (duration : ℚ) (s : Segment) : RenderedSegment :=
  { left := pct duration s.start
    width := max (1/5) (pct duration s.stop - pct duration s.start)
    background := colorForMode s.mode }

/-- Embeds the Timeline render: the list of segment styles in sequence order
together with the playhead marker position `playhead * 100` (percent). -/
def renderTimeline (segments : List Segment) (duration playhead : ℚ) :
    List RenderedSegment × ℚ :=
  (segments.map (renderSegment duration), playhead * 100)

/-- The slice of App.jsx state touched by analyze/upload: `segments`,
`duration`, `error`, `loading`. -/
structure AppState where
  segments : List Segment
  duration : ℚ
  error : Option String
  loading : Bool
  deriving Repr, DecidableEq

/-- The common prefix of `handleAnalyze` and `handleUpload` in App.jsx:
`setError(null); setSegments([]); setDuration(0)` — run before any request
is dispatched. -/
def resetForRequest (st : AppState) : AppState :=
  { st with error := none, segments := [], duration := 0 }

/-- How a dispatched `/analyze` fetch resolves, as observed by
`handleAnalyze`: a non-OK response (status plus body text), a rejected
`res.json()` (carrying the stringified exception), a rejected fetch
(network error, stringified exception), or an OK JSON body.  In the success
payload, `none` models an absent/falsy `data.segments` or `data.duration`
(the source applies `|| []` and `|| 0`). -/
inductive AnalyzeOutcome where
  | httpError (status : Nat) (txt : String)
  | parseError (e : String)
  | networkError (e : String)
  | success (segs : Option (List Segment)) (dur : Option ℚ)
  deriving Repr, DecidableEq

/-- The outcomes of `AnalyzeOutcome` on which `handleAnalyze` lands in its
`catch` block. -/
def AnalyzeOutcome.isFailure : AnalyzeOutcome → Bool
  | .httpError _ _ => true
  | .parseError _ => true
  | .networkError _ => true
  | .success _ _ => false

/-- Embeds `handleAnalyze` of App.jsx as a state transformer: reset, then the
`!serverPath` early return (JS falsiness: the empty string), then the fetch
whose resolution is `outcome`.  The `throw` on `!res.ok` and the rejected
json parse both land in the `catch`, which does `setError(String(e))`;
`finally` does `setLoading(false)`. -/
def handleAnalyze (st : AppState) (serverPath : String)
    (outcome : AnalyzeOutcome) : AppState :=
  let st := resetForRequest st
  if serverPath = "" then
    { st with error := some "Please provide a server-side video path (e.g. videos/Mihir_clip.MOV)" }
  else
    let st := { st with loading := true }
    let st :=
      match outcome with
      | .httpError status txt =>
          { st with error := some ("Error: Server error: " ++ toString status ++ " " ++ txt) }
      | .parseError e => { st with error := some e }
      | .networkError e => { st with error := some e }
      | .success segs dur =>
          { st with segments := segs.getD [], duration := dur.getD 0 }
    { st with loading := false }

/-- How the `/upload` XMLHttpRequest completes, as observed by
`handleUpload`'s `onreadystatechange`/`onerror` handlers: a 2xx status whose
body parses (payload as in `AnalyzeOutcome.success`), a 2xx status whose
body fails `JSON.parse`, a non-2xx status, or a network error. -/
inductive UploadOutcome where
  | okParsed (segs : Option (List Segment)) (dur : Option ℚ)
  | okParseFailure
  | statusError (status : Nat) (statusText : String)
  | networkError
  deriving Repr, DecidableEq

/-- The outcomes of `UploadOutcome` on which `handleUpload` sets an error. -/
def UploadOutcome.isFailure : UploadOutcome → Bool
  | .okParsed _ _ => false
  | .okParseFailure => true
  | .statusError _ _ => true
  | .networkError => true

/-- Embeds `handleUpload` of App.jsx as a state transformer: reset, then the
`!localFile` early return, then the XHR whose completion is `outcome` (every
completion path first does `setLoading(false)`). -/
def handleUpload (st : AppState) (hasLocalFile : Bool)
    (outcome : UploadOutcome) : AppState :=
  let st := resetForRequest st
  if !hasLocalFile then
    { st with error := some "No local file selected to upload" }
  else
    let st := { st with loading := true }
    let st := { st with loading := false }
    match outcome with
    | .okParsed segs dur =>
        { st with segments := segs.getD [], duration := dur.getD 0 }
    | .okParseFailure => { st with error := some "Failed to parse server response" }
    | .statusError status statusText =>
        { st with error := some ("Upload failed: " ++ toString status ++ " " ++ statusText) }
    | .networkError => { st with error := some "Network error during upload" }

/-! ## Helper lemmas -/

/-- A tick with non-positive duration never changes the playhead state. -/
theorem tick_nonpos (ph : ℚ) (src : Option ℚ) (d : ℚ) (hd : d ≤ 0) :
    tick ph src d = ph := by
  cases src with
  | none => rfl
  | some ct => simp [tick, not_lt.mpr hd]

/-- Any run of ticks with non-positive duration leaves the playhead state
unchanged. -/
theorem ticks_nonpos (ph : ℚ) (samples : List (Option ℚ)) (d : ℚ)
    (hd : d ≤ 0) : ticks ph samples d = ph := by
  induction samples generalizing ph with
  | nil => rfl
  | cons s rest ih =>
      simp only [ticks, List.foldl_cons] at *
      rw [tick_nonpos ph s d hd, ih]

/-- `pct` always lands in `[0, 100]`. -/
theorem pct_mem (d t : ℚ) : 0 ≤ pct d t ∧ pct d t ≤ 100 := by
  unfold pct
  split
  · norm_num
  · exact ⟨le_max_left _ _,
      max_le (by norm_num) (min_le_left _ _)⟩

/-! ## Claims -/

/-- C1: the claim reads "the published playhead value equals
currentTime / duration when duration > 0 and equals 0 when duration <= 0,
and in all cases the published value lies in [0, 1]".  Both universal parts
fail on the code: a tick with `duration <= 0` skips `setPlayhead` and leaves
the previous playhead (here `1/2`) in place rather than publishing `0`, and
a tick with `currentTime = 2, duration = 1` publishes `2`, outside `[0,1]`
(the tick does not clamp). -/
theorem C1_counterexample :
    tick (1/2) (some 7) 0 = 1/2 ∧ (1/2 : ℚ) ≠ 0 ∧
    tick 0 (some 2) 1 = 2 ∧ ¬ ((2 : ℚ) ≤ 1) := by
  refine ⟨?_, by norm_num, ?_, by norm_num⟩
  · exact tick_nonpos _ _ _ le_rfl
  · simp [tick]

/-- C1 (amended): per sampling tick, the playhead is set to
`currentTime / duration` when the source is present and `duration > 0`;
when `duration <= 0` the tick leaves the playhead unchanged (so it reads 0
only if it was 0 before, e.g. ever since mount); and the published value
lies in `[0, 1]` provided `0 <= currentTime <= duration` (the code performs
no clamping of its own). -/
theorem C1_amended_tracker_tick (ph ct d : ℚ) :
    (0 < d → tick ph (some ct) d = ct / d) ∧
    (d ≤ 0 → ∀ src : Option ℚ, tick ph src d = ph) ∧
    (0 < d → 0 ≤ ct → ct ≤ d →
      0 ≤ tick ph (some ct) d ∧ tick ph (some ct) d ≤ 1) := by
  refine ⟨fun hd => by simp [tick, hd], fun hd src => tick_nonpos ph src d hd,
    fun hd h0 h1 => ?_⟩
  simp only [tick, if_pos hd]
  exact ⟨div_nonneg h0 hd.le, (div_le_one hd).mpr h1⟩

/-- C1 witness: the amended statement at concrete inputs. -/
theorem C1_amended_witness :
    tick 0 (some 1) 2 = 1 / 2 ∧ tick (1/2) (some 9) 0 = 1/2 ∧
    0 ≤ tick 0 (some 1) 2 ∧ tick 0 (some 1) 2 ≤ 1 :=
  ⟨(C1_amended_tracker_tick 0 1 2).1 (by norm_num),
   (C1_amended_tracker_tick (1/2) 9 0).2.1 (by norm_num) (some 9),
   ((C1_amended_tracker_tick 0 1 2).2.2 (by norm_num) (by norm_num)
     (by norm_num)).1,
   ((C1_amended_tracker_tick 0 1 2).2.2 (by norm_num) (by norm_num)
     (by norm_num)).2⟩

/-- C2: the claim reads "if duration <= 0 or the measured track width is 0,
no seek request is issued".  False on the code: `handleClick` has no
duration or width guard, so a click at `x = 25` on a track of width `100`
with `duration = 0` still issues a seek request (carrying time `0`). -/
theorem C2_counterexample :
    handleClick true true 25 100 0 = some 0 ∧
    handleClick true true 25 100 0 ≠ none := by
  constructor
  · simp [handleClick]
  · simp [handleClick]

/-- C2 (amended): `handleClick` issues no seek request exactly when the
container ref or the `onSeek` callback is absent; whenever both are present
a single seek request carrying `(x / width) * duration` is issued, with no
guard on `duration <= 0` (the request then carries a non-positive time,
`0` when `duration = 0`) and no guard on zero measured width. -/
theorem C2_amended_handleClick_no_guard (hc hs : Bool) (x W d : ℚ) :
    handleClick hc hs x W d =
      if hc && hs then some (x / W * d) else none := by
  cases hc <;> cases hs <;> simp [handleClick]

/-- C3: for a pointer interaction at offset `x` on a track of nonzero width
`W` (so `0 <= x <= W`) with duration `d > 0`, the single seek request issued
by `handleClick` carries exactly `clamp(x/W, 0, 1) * d`, and `handleSeek`
makes exactly one playback-source time assignment of that value. -/
theorem C3_seek_value (x W d : ℚ) (hW : 0 < W) (hx0 : 0 ≤ x) (hxW : x ≤ W)
    (hd : 0 < d) :
    handleClick true true x W d = some (max 0 (min 1 (x / W)) * d) ∧
    handleSeek true (max 0 (min 1 (x / W)) * d) =
      some (max 0 (min 1 (x / W)) * d) := by
  have h0 : 0 ≤ x / W := div_nonneg hx0 hW.le
  have h1 : x / W ≤ 1 := (div_le_one hW).mpr hxW
  have hclamp : max 0 (min 1 (x / W)) = x / W := by
    rw [min_eq_right h1, max_eq_right h0]
  rw [hclamp]
  exact ⟨by simp [handleClick], rfl⟩

/-- C3 witness: a click at `x = 0.25 * W` (here `x = 25`, `W = 100`) with
duration `200` requests exactly time `50`. -/
theorem C3_witness :
    handleClick true true 25 100 200 = some 50 ∧
    handleSeek true 50 = some 50 := by
  have h := C3_seek_value 25 100 200 (by norm_num) (by norm_num)
    (by norm_num) (by norm_num)
  have hv : max 0 (min 1 ((25 : ℚ) / 100)) * 200 = 50 := by norm_num
  rw [hv] at h
  exact h

/-- C4: `pct` (the spec's `timeToPercent`) returns `0` when
`duration <= 0`, returns `t / duration * 100` clamped into `[0, 100]` when
`duration > 0`, and its value always lies in `[0, 100]`. -/
theorem C4_timeToPercent_spec (t d : ℚ) :
    (d ≤ 0 → pct d t = 0) ∧
    (0 < d → pct d t = min 100 (max 0 (t / d * 100))) ∧
    0 ≤ pct d t ∧ pct d t ≤ 100 := by
  refine ⟨fun hd => by simp [pct, hd], fun hd => ?_, pct_mem d t⟩
  rw [pct, if_neg (not_le.mpr hd), max_min_distrib_left,
    max_eq_right (by norm_num : (0:ℚ) ≤ 100)]

/-- C4 witness: the characterization at concrete inputs
(`d = 0` and `d = 100`). -/
theorem C4_witness :
    pct 0 7 = 0 ∧ pct 100 30 = min 100 (max 0 ((30 : ℚ) / 100 * 100)) ∧
    0 ≤ pct 100 30 ∧ pct 100 30 ≤ 100 :=
  ⟨(C4_timeToPercent_spec 7 0).1 le_rfl,
   (C4_timeToPercent_spec 30 100).2.1 (by norm_num),
   (C4_timeToPercent_spec 30 100).2.2.1,
   (C4_timeToPercent_spec 30 100).2.2.2⟩

/-- C5: whenever the mapped extent `pct(end) - pct(start)` of a segment is
below `0.2`, the rendered width is exactly `0.2` (the visibility floor). -/
theorem C5_width_floor (d : ℚ) (s : Segment)
    (h : pct d s.stop - pct d s.start < 1/5) :
    (renderSegment d s).width = 1/5 := by
  simp only [renderSegment]
  exact max_eq_left h.le

/-- C5 witness: with duration `100` and the segment `[50.0, 50.05]`
(`50.05 = 1001/20`), the mapped extent is `0.05 < 0.2` and the rendered
width floors to exactly `0.2 = 1/5`. -/
theorem C5_witness :
    pct 100 ((1001 : ℚ)/20) - pct 100 50 = 1/20 ∧
    (renderSegment 100 ⟨"DIALOGUE_SCENE", 50, 1001/20⟩).width = 1/5 := by
  constructor
  · norm_num [pct]
  · exact C5_width_floor 100 ⟨"DIALOGUE_SCENE", 50, 1001/20⟩
      (by norm_num [pct])

/-- C6: round-trip law — for `duration > 0` and `t` in `[0, duration]`,
`percentToTime (pct duration t / 100) duration = t`, exactly (the rational
model makes "within floating tolerance" an equality). -/
theorem C6_round_trip (t d : ℚ) (hd : 0 < d) (h0 : 0 ≤ t) (h1 : t ≤ d) :
    percentToTime (pct d t / 100) d = t := by
  have hv0 : 0 ≤ t / d * 100 := by positivity
  have hv1 : t / d * 100 ≤ 100 := by
    have : t / d ≤ 1 := (div_le_one hd).mpr h1
    nlinarith
  rw [percentToTime, pct, if_neg (not_le.mpr hd), min_eq_right hv1,
    max_eq_right hv0]
  field_simp
  ring

/-- C6 witness: `d = 100`, `t = 30` round-trips exactly. -/
theorem C6_witness : percentToTime (pct 100 30 / 100) 100 = 30 :=
  C6_round_trip 30 100 (by norm_num) (by norm_num) (by norm_num)

/-- C7: the mode-to-color mapping is total — `colorForMode` is a total
function of the mode alone, the three known modes map to their fixed colors,
and every other mode maps to the neutral color `#94a3b8` (never failing). -/
theorem C7_colorForMode_total :
    colorForMode "DIALOGUE_SCENE" = "#4f46e5" ∧
    colorForMode "VISUAL_MONTAGE" = "#ef4444" ∧
    colorForMode "VOICEOVER_WITH_PICTURE" = "#10b981" ∧
    ∀ m : String, m ≠ "DIALOGUE_SCENE" → m ≠ "VISUAL_MONTAGE" →
      m ≠ "VOICEOVER_WITH_PICTURE" → colorForMode m = "#94a3b8" := by
  refine ⟨rfl, rfl, rfl, fun m h1 h2 h3 => ?_⟩
  simp [colorForMode, h1, h2, h3]

/-- C7 witness: an unrecognized mode falls back to the neutral color. -/
theorem C7_witness : colorForMode "B_ROLL" = "#94a3b8" :=
  C7_colorForMode_total.2.2.2 "B_ROLL" (by decide) (by decide) (by decide)

/-- C8: the claim reads "When duration = 0, the rendered track places every
segment collapsed at position 0 and the playhead at 0".  The playhead
conjunct fails on reachable states: playback at duration `100` with
`currentTime = 50` drives the playhead state to `1/2`; when the duration is
then reset to `0` (as `handleAnalyze` does before a request) the next tick
skips `setPlayhead` and keeps the stale `1/2`, so the playhead marker
renders at `50` percent, not `0`. -/
theorem C8_counterexample :
    ticks 0 [some 50] 100 = 1/2 ∧
    tick (1/2) (some 50) 0 = 1/2 ∧
    (renderTimeline [] 0 (tick (1/2) (some 50) 0)).2 = 50 ∧
    (50 : ℚ) ≠ 0 := by
  have h1 : ticks 0 [some 50] 100 = 1/2 := by
    simp [ticks, tick]
    norm_num
  have h2 : tick (1/2) (some 50) 0 = 1/2 := tick_nonpos _ _ _ le_rfl
  refine ⟨h1, h2, ?_, by norm_num⟩
  rw [h2]
  simp [renderTimeline]
  norm_num

/-- C8 (amended): with `duration = 0`, every segment renders collapsed at
position `0` (left `0`, the minimal sliver width `0.2`) and an empty
segment sequence renders an empty track with no error; the playhead marker
renders at `0` whenever duration has been `0` for the whole run since mount
(the tick never updates the state, which stays at its initial `0`) — but a
stale nonzero playhead left over from playback at a positive duration keeps
rendering at its old position. -/
theorem C8_amended_zero_duration_render (samples : List (Option ℚ))
    (segs : List Segment) (s : Segment) :
    renderSegment 0 s = ⟨0, 1/5, colorForMode s.mode⟩ ∧
    ticks 0 samples 0 = 0 ∧
    renderTimeline [] 0 (ticks 0 samples 0) = ([], 0) ∧
    (renderTimeline segs 0 (ticks 0 samples 0)).2 = 0 := by
  have ht : ticks 0 samples 0 = 0 := ticks_nonpos 0 samples 0 le_rfl
  have hp : ∀ t : ℚ, pct 0 t = 0 := fun t => by simp [pct]
  refine ⟨?_, ht, ?_, ?_⟩
  · simp [renderSegment, hp]
  · simp [renderTimeline, ht]
  · simp [renderTimeline, ht]

/-- C9: for every segment (malformed ones included) and every duration, the
rendered left offset lies in `[0, 100]` and the rendered width is at least
`0.2` — never a negative-width or out-of-track region. -/
theorem C9_render_invariants (d : ℚ) (s : Segment) :
    0 ≤ (renderSegment d s).left ∧ (renderSegment d s).left ≤ 100 ∧
    (1/5 : ℚ) ≤ (renderSegment d s).width :=
  ⟨(pct_mem d s.start).1, (pct_mem d s.start).2, le_max_left _ _⟩

/-- C10: triggering an analysis or an upload first resets `segments` to `[]`
and `duration` to `0` (the reset runs before the request is dispatched), and
on every failure outcome — non-OK status, parse failure, network error —
they remain `[]` and `0`, for any prior state. -/
theorem C10_failure_leaves_reset (st : AppState) (path : String)
    (hf : Bool) (ao : AnalyzeOutcome) (uo : UploadOutcome)
    (ha : ao.isFailure = true) (hu : uo.isFailure = true) :
    (resetForRequest st).segments = [] ∧ (resetForRequest st).duration = 0 ∧
    (handleAnalyze st path ao).segments = [] ∧
    (handleAnalyze st path ao).duration = 0 ∧
    (handleUpload st hf uo).segments = [] ∧
    (handleUpload st hf uo).duration = 0 := by
  refine ⟨rfl, rfl, ?_, ?_, ?_, ?_⟩ <;>
    cases ao <;> cases uo <;> cases hf <;>
      simp_all [handleAnalyze, handleUpload, resetForRequest,
        AnalyzeOutcome.isFailure, UploadOutcome.isFailure] <;>
      split <;> rfl

/-- C10 witness: a populated prior state, a network error on analyze and a
500 status on upload leave `segments = []` and `duration = 0`. -/
theorem C10_witness :
    (handleAnalyze ⟨[⟨"DIALOGUE_SCENE", 0, 1⟩], 42, none, false⟩
        "videos/Mihir_clip.MOV"
        (.networkError "TypeError: Failed to fetch")).segments = [] ∧
    (handleAnalyze ⟨[⟨"DIALOGUE_SCENE", 0, 1⟩], 42, none, false⟩
        "videos/Mihir_clip.MOV"
        (.networkError "TypeError: Failed to fetch")).duration = 0 ∧
    (handleUpload ⟨[⟨"DIALOGUE_SCENE", 0, 1⟩], 42, none, false⟩ true
        (.statusError 500 "Internal Server Error")).segments = [] ∧
    (handleUpload ⟨[⟨"DIALOGUE_SCENE", 0, 1⟩], 42, none, false⟩ true
        (.statusError 500 "Internal Server Error")).duration = 0 := by
  have h := C10_failure_leaves_reset
    ⟨[⟨"DIALOGUE_SCENE", 0, 1⟩], 42, none, false⟩ "videos/Mihir_clip.MOV"
    true (.networkError "TypeError: Failed to fetch")
    (.statusError 500 "Internal Server Error") rfl rfl
  exact ⟨h.2.2.1, h.2.2.2.1, h.2.2.2.2.1, h.2.2.2.2.2⟩

end VideoClassifier
